import Mathlib

/-!
# Verification of the doggo3 scheduling / matching / triage core

Shallow embedding of the algorithmic core of the repository:

* the veterinarian availability computation
  (`getVeterinarianAvailability` in `apps/cms/src/server.ts`),
* the TinDog compatibility scorer
  (`MatchingAlgorithm.calculateCompatibilityScore` in `packages/database/seed.ts`),
* the medical triage scorer
  (`TriageSystem.calculateTriageScore` in `packages/database/seed.ts`).

Conventions of the embedding:

* JavaScript numbers are modelled as exact rationals (`ℚ`); the float-free
  integer arithmetic of the slot loop is modelled on `ℕ`.  The geographic
  distance uses transcendental functions and is modelled over `ℝ`.
* `Math.round x` is `⌊x + 1/2⌋`, which is the JavaScript semantics.
* Database fetches are lifted out: the list of working-hour rules and the
  list of same-day non-cancelled bookings are explicit arguments, and the
  bookings of the day are given by their start minute within the queried day
  and their duration in minutes.
* `dayjs()` (the current clock) is an explicit `now` argument.
-/

set_option maxHeartbeats 1600000

namespace Doggo

/-! ## Availability engine (`getVeterinarianAvailability`, server.ts) -/

/-- One working-hours rule of a veterinarian.  The source stores
`startTime`/`endTime` as `"HH:MM"` strings and splits them on a colon;
we model the already-split (hour, minute) pairs. -/
structure WorkingHour where
  dayOfWeek : ℕ
  startTime : ℕ × ℕ
  endTime : ℕ × ℕ
  isAvailable : Bool
deriving DecidableEq

/-- A non-cancelled booking of the queried day, as used by the slot loop:
its start instant expressed in minutes from midnight of that day, and its
duration in minutes (`bookingEnd = bookingStart + duration * 60000 ms`). -/
structure BookingRec where
  scheduledAt : ℕ
  duration : ℕ
deriving DecidableEq

/-- The check `bookings.some(b => slotDateTime >= bookingStart && slotDateTime < bookingEnd)`. -/
def isBooked (bookings : List BookingRec) (slotMinutes : ℕ) : Bool :=
  bookings.any fun booking =>
    decide (booking.scheduledAt ≤ slotMinutes) &&
      decide (slotMinutes < booking.scheduledAt + booking.duration)

/-- The candidate-slot loop
`for (let minutes = startMinutes; minutes < endMinutes; minutes += step)`,
written with a fuel argument so that it is structurally recursive (the kernel
can evaluate it); `fuel = endMinutes - m` suffices.  The `0 < step` guard is
a termination guard: the source fixes `step = 30`. -/
def slotGo (step endMinutes : ℕ) : ℕ → ℕ → List ℕ
  | 0, _ => []
  | fuel + 1, m =>
    if 0 < step ∧ m < endMinutes then m :: slotGo step endMinutes fuel (m + step)
    else []

/-- All candidate slot starts from `m` (stride `step`, strictly below `endMinutes`). -/
def slotStarts (step endMinutes m : ℕ) : List ℕ :=
  slotGo step endMinutes (endMinutes - m) m

/-- The body of the single source loop: generate the candidate slots and
push the ones that are not booked (fuel-recursive like `slotGo`). -/
def availGo (bookings : List BookingRec) (endMinutes : ℕ) : ℕ → ℕ → List ℕ
  | 0, _ => []
  | fuel + 1, m =>
    if m < endMinutes then
      if isBooked bookings m then availGo bookings endMinutes fuel (m + 30)
      else m :: availGo bookings endMinutes fuel (m + 30)
    else []

/-- The slot loop of `getVeterinarianAvailability` (stride hard-coded to 30). -/
def availLoop (bookings : List BookingRec) (endMinutes m : ℕ) : List ℕ :=
  availGo bookings endMinutes (endMinutes - m) m

/-- Embeds `getVeterinarianAvailability` (server.ts), with the database reads lifted
to arguments: `workingHours` is the `workingHours` array of the veterinarian,
`bookings` the non-cancelled bookings of the queried date, and `dayOfWeek`
is `date.getDay()`.  Slot labels are modelled by their minute-of-day value
(the source renders them as zero-padded `"HH:MM"` strings, a bijective
renaming of the same data). -/
def getVeterinarianAvailability (workingHours : List WorkingHour)
    (bookings : List BookingRec) (dayOfWeek : ℕ) : List ℕ :=
  match workingHours.find? (fun wh => wh.dayOfWeek == dayOfWeek && wh.isAvailable) with
  | none => []
  | some daySchedule =>
    let startMinutes := daySchedule.startTime.1 * 60 + daySchedule.startTime.2
    let endMinutes := daySchedule.endTime.1 * 60 + daySchedule.endTime.2
    availLoop bookings endMinutes startMinutes

/-! ## Triage scorer (`TriageSystem`, packages/database/seed.ts) -/

/-- A JavaScript value as it can appear in `TriageResponse.answer`
(`string | number | boolean` in `packages/types/index.ts`). -/
inductive JsValue where
  | bool (b : Bool)
  | num (x : ℚ)
  | str (s : String)
deriving DecidableEq

structure TriageResponse where
  questionId : String
  answer : JsValue
deriving DecidableEq

inductive QuestionType where
  | boolean
  | scale
  | multiple
deriving DecidableEq

structure TriageQuestion where
  id : String
  question : String
  type : QuestionType
  options : List String
  weight : ℚ
  category : String
deriving DecidableEq

/-- The fixed question bank `TriageSystem.questions` (accents of the Italian
question texts are transliterated; the texts play no role in the scoring). -/
def questions : List TriageQuestion :=
  [ ⟨"breathing_difficulty", "Il cane ha difficolta respiratorie?", .boolean, [], 10, "symptoms"⟩,
    ⟨"consciousness", "Il cane e cosciente e reattivo?", .boolean, [], 9, "symptoms"⟩,
    ⟨"bleeding", "E presente sanguinamento?", .multiple,
      ["Nessuno", "Lieve", "Moderato", "Grave"], 8, "symptoms"⟩,
    ⟨"pain_level", "Livello di dolore percepito (1-10)", .scale, [], 7, "symptoms"⟩,
    ⟨"vomiting", "Ha vomitato nelle ultime 24 ore?", .boolean, [], 5, "symptoms"⟩,
    ⟨"appetite", "Ha appetito normale?", .boolean, [], 4, "behavior"⟩,
    ⟨"mobility", "Ha difficolta a camminare?", .boolean, [], 6, "symptoms"⟩,
    ⟨"previous_issues", "Ha avuto problemi simili in passato?", .boolean, [], 3, "history"⟩ ]

/-- JavaScript numeric coercion as exercised by `(response.answer as number) / 10`:
booleans coerce to 0/1.  A non-numeric string would give `NaN` in JavaScript;
`NaN` is not modelled (the embedding returns 0 there), and every claim about
scale questions is stated for numeric answers only. -/
def jsToNumber : JsValue → ℚ
  | .bool true => 1
  | .bool false => 0
  | .num x => x
  | .str _ => 0

/-- The lookup `question.options.indexOf(response.answer)`: `-1` when the answer is not
among the options (or is not a string, since `indexOf` compares with `===`). -/
def indexOfAnswer (options : List String) (a : JsValue) : ℤ :=
  match a with
  | .str s =>
    match options.findIdx? (fun o => o == s) with
    | some i => (i : ℤ)
    | none => -1
  | _ => -1

/-- The per-question score of a matched response (the body of the
`forEach` in `calculateTriageScore`). -/
def questionScore (q : TriageQuestion) (r : TriageResponse) : ℚ :=
  match q.type with
  | .boolean =>
    if q.id = "consciousness" ∨ q.id = "appetite" then
      -- Inverted scoring for positive questions
      if r.answer = .bool false then q.weight else 0
    else
      if r.answer = .bool true then q.weight else 0
  | .scale => jsToNumber r.answer / 10 * q.weight
  | .multiple =>
    ((indexOfAnswer q.options r.answer : ℚ) / ((q.options.length : ℚ) - 1)) * q.weight

inductive UrgencyLevel where
  | low
  | medium
  | high
  | critical
deriving DecidableEq

structure TriageResult where
  score : ℤ
  urgencyLevel : UrgencyLevel
  recommendations : List String
  suggestedActions : List String
  veterinarianRequired : Bool
  emergencyServices : Bool
deriving DecidableEq

/-- JavaScript `Math.round`. -/
def mathRound (x : ℚ) : ℤ := ⌊x + 1 / 2⌋

/-- Embeds `TriageSystem.calculateTriageScore` (seed.ts).  The source accumulates
`totalScore` and `maxPossibleScore` in a single `forEach` over the question
bank, looking up `responses.find(r => r.questionId === question.id)` for each
question; the accumulation is modelled as a map-and-sum over the same bank. -/
def calculateTriageScore (responses : List TriageResponse) : TriageResult :=
  let maxPossibleScore : ℚ := (questions.map (fun q => q.weight)).sum
  let totalScore : ℚ :=
    (questions.map (fun q =>
      match responses.find? (fun r => r.questionId == q.id) with
      | none => 0
      | some r => questionScore q r)).sum
  let normalizedScore : ℤ := mathRound (totalScore / maxPossibleScore * 100)
  if 80 ≤ normalizedScore then
    ⟨normalizedScore, .critical,
      ["Contattare immediatamente i servizi di emergenza veterinaria",
       "Non spostare il cane se non necessario",
       "Mantenere il cane calmo e al caldo"],
      ["Chiamare emergenza veterinaria", "Prepararsi al trasporto"],
      true, true⟩
  else if 60 ≤ normalizedScore then
    ⟨normalizedScore, .high,
      ["Consultare un veterinario entro 2-4 ore",
       "Monitorare attentamente i sintomi",
       "Non somministrare farmaci senza consulto"],
      ["Prenotare visita urgente", "Preparare documenti sanitari"],
      true, false⟩
  else if 30 ≤ normalizedScore then
    ⟨normalizedScore, .medium,
      ["Consultare un veterinario entro 24-48 ore",
       "Tenere sotto osservazione",
       "Offrire acqua e cibo leggero se gradito"],
      ["Prenotare visita", "Monitorare sintomi"],
      true, false⟩
  else
    ⟨normalizedScore, .low,
      ["Situazione non urgente",
       "Continuare a monitorare",
       "Consultare il veterinario se i sintomi peggiorano"],
      ["Monitoraggio domestico", "Consultazione opzionale"],
      false, false⟩

/-! ### Specification-side triage formula (for the refinement claim C3)

These definitions follow the wording of the specification, not the source:
per-question closed formulas, `maxPossible` the sum of all eight weights,
and `round(100 × total / maxPossible)`. -/

/-- The answer the specification attributes to a question: the one of the
first response carrying the id of the question. -/
def specAnswer (responses : List TriageResponse) (qid : String) : Option JsValue :=
  (responses.find? (fun r => r.questionId == qid)).map (fun r => r.answer)

/-- Spec wording: positive-phrased boolean questions score full weight exactly
when the answer is `false`; all other boolean questions exactly when it is
`true`; unanswered questions contribute 0. -/
def specBoolScore (a : Option JsValue) (weight : ℚ) (positivePhrased : Bool) : ℚ :=
  match a with
  | none => 0
  | some v =>
    if positivePhrased then (if v = .bool false then weight else 0)
    else (if v = .bool true then weight else 0)

/-- Spec wording: scale questions score `(answer / 10) × weight`. -/
def specScaleScore (a : Option JsValue) (weight : ℚ) : ℚ :=
  match a with
  | some (.num x) => x / 10 * weight
  | _ => 0

/-- Spec wording: multiple-choice questions score
`(optionIndex / (numOptions - 1)) × weight`. -/
def specMultipleScore (a : Option JsValue) (options : List String) (weight : ℚ) : ℚ :=
  match a with
  | some (.str s) =>
    match options.findIdx? (fun o => o == s) with
    | some i => ((i : ℚ) / ((options.length : ℚ) - 1)) * weight
    | none => 0
  | _ => 0

/-- The code-side contribution of one boolean bank question, as a function of
the `find?` lookup result. -/
def boolTerm (o : Option TriageResponse) (w : ℚ) : ℚ :=
  match o with
  | none => 0
  | some r => if r.answer = .bool true then w else 0

/-- Code-side contribution of an inverted (positive-phrased) boolean question. -/
def boolInvTerm (o : Option TriageResponse) (w : ℚ) : ℚ :=
  match o with
  | none => 0
  | some r => if r.answer = .bool false then w else 0

/-- Code-side contribution of a scale question. -/
def scaleTerm (o : Option TriageResponse) (w : ℚ) : ℚ :=
  match o with
  | none => 0
  | some r => jsToNumber r.answer / 10 * w

/-- Code-side contribution of a multiple-choice question. -/
def multipleTerm (o : Option TriageResponse) (opts : List String) (w : ℚ) : ℚ :=
  match o with
  | none => 0
  | some r => ((indexOfAnswer opts r.answer : ℚ) / ((opts.length : ℚ) - 1)) * w

def specTotalScore (responses : List TriageResponse) : ℚ :=
  specBoolScore (specAnswer responses ("breathing_difficulty")) 10 false
    + specBoolScore (specAnswer responses ("consciousness")) 9 true
    + specMultipleScore (specAnswer responses ("bleeding"))
        ["Nessuno", "Lieve", "Moderato", "Grave"] 8
    + specScaleScore (specAnswer responses ("pain_level")) 7
    + specBoolScore (specAnswer responses ("vomiting")) 5 false
    + specBoolScore (specAnswer responses ("appetite")) 4 true
    + specBoolScore (specAnswer responses ("mobility")) 6 false
    + specBoolScore (specAnswer responses ("previous_issues")) 3 false

/-- Sum of the weights of all questions in the fixed bank. -/
def specMaxPossibleScore : ℚ := 10 + 9 + 8 + 7 + 5 + 4 + 6 + 3

/-- The value `round(100 × totalScore / maxPossibleScore)` as the specification states it. -/
def specTriageScore (responses : List TriageResponse) : ℤ :=
  mathRound (100 * specTotalScore responses / specMaxPossibleScore)

/-- A scale answer that is a number in the documented 0-10 range. -/
def scaleAnswerOK (a : JsValue) : Bool :=
  match a with
  | .num x => decide (0 ≤ x ∧ x ≤ 10)
  | _ => false

/-- A scale answer that is a number at all. -/
def scaleAnswerNumeric (a : JsValue) : Bool :=
  match a with
  | .num _ => true
  | _ => false

/-- A multiple-choice answer that is one of the options of the bleeding question. -/
def multipleAnswerOK (a : JsValue) : Bool :=
  match a with
  | .str s => ["Nessuno", "Lieve", "Moderato", "Grave"].contains s
  | _ => false

/-- The restriction of a response list used by claim C10: drop responses whose
id is outside the question bank, and keep only the first response per id. -/
def firstPerId : List TriageResponse → List String → List TriageResponse
  | [], _ => []
  | r :: rs, seen =>
    if r.questionId ∈ seen then firstPerId rs seen
    else r :: firstPerId rs (r.questionId :: seen)

def bankIds : List String := questions.map (fun q => q.id)

def restrictResponses (responses : List TriageResponse) : List TriageResponse :=
  (firstPerId responses []).filter (fun r => bankIds.contains r.questionId)

/-! ## Matching engine (`MatchingAlgorithm`, packages/database/seed.ts) -/

/-- The enum `DogSize` (packages/types/index.ts). -/
inductive DogSize where
  | tiny
  | small
  | medium
  | large
  | giant
deriving DecidableEq, Fintype

/-- The enum `ActivityLevel` (packages/types/index.ts). -/
inductive ActivityLevel where
  | low
  | moderate
  | high
  | veryHigh
deriving DecidableEq, Fintype

/-- A calendar date, used both for `birthDate` and for the current clock
reading (`dayjs()`). -/
structure SimpleDate where
  year : ℤ
  month : ℤ
  day : ℤ
deriving DecidableEq

/-- The interface `LocationPoint` (packages/types/index.ts). -/
structure LocationPoint where
  latitude : ℝ
  longitude : ℝ

/-- The dog fields read by `calculateCompatibilityScore`. -/
structure MatchDog where
  size : DogSize
  birthDate : SimpleDate
  activityLevel : ActivityLevel
  temperament : List String
  gender : String
deriving DecidableEq

/-- The user fields read by `calculateCompatibilityScore`:
`user.address?.coordinates`, collapsed to an optional coordinate pair. -/
structure MatchUser where
  coordinates : Option LocationPoint

/-- Embeds `DateUtils.calculateAge(birthDate).years`, i.e.
`dayjs().diff(dayjs(birthDate), year)`: the number of whole years from
`birth` to `now` (one less than the year difference while the anniversary
has not yet occurred).  `dayjs()` is the current clock, passed explicitly. -/
def calculateAgeYears (now birth : SimpleDate) : ℤ :=
  now.year - birth.year -
    (if now.month < birth.month ∨ (now.month = birth.month ∧ now.day < birth.day)
     then 1 else 0)

def sizeOrder : List DogSize := [.tiny, .small, .medium, .large, .giant]

def activityOrder : List ActivityLevel := [.low, .moderate, .high, .veryHigh]

/-- The lookup `sizeOrder.indexOf(size)` (`-1` is unreachable: the enum is exhaustive). -/
def sizeIndex (size : DogSize) : ℤ :=
  match sizeOrder.findIdx? (fun x => x == size) with
  | some i => (i : ℤ)
  | none => -1

def activityIndex (level : ActivityLevel) : ℤ :=
  match activityOrder.findIdx? (fun x => x == level) with
  | some i => (i : ℤ)
  | none => -1

/-- Embeds `MatchingAlgorithm.getSizeCompatibility`. -/
def getSizeCompatibility (size1 size2 : DogSize) : ℚ :=
  let difference := |sizeIndex size1 - sizeIndex size2|
  max 0 (1 - (difference : ℚ) * 0.2)

/-- Embeds `MatchingAlgorithm.getAgeCompatibility`, with the `dayjs()` clock of
`DateUtils.calculateAge` passed explicitly. -/
def getAgeCompatibility (birthDate1 birthDate2 now : SimpleDate) : ℚ :=
  let age1 := calculateAgeYears now birthDate1
  let age2 := calculateAgeYears now birthDate2
  let ageDifference := |age1 - age2|
  if ageDifference ≤ 2 then 1
  else if ageDifference ≤ 4 then 0.7
  else if ageDifference ≤ 6 then 0.4
  else 0.1

/-- Embeds `MatchingAlgorithm.getActivityCompatibility`. -/
def getActivityCompatibility (level1 level2 : ActivityLevel) : ℚ :=
  let difference := |activityIndex level1 - activityIndex level2|
  max 0 (1 - (difference : ℚ) * 0.25)

/-- Embeds `MatchingAlgorithm.getTemperamentCompatibility`. -/
def getTemperamentCompatibility (temperament1 temperament2 : List String) : ℚ :=
  if temperament1.isEmpty || temperament2.isEmpty then 0.5
  else
    let commonTraits := temperament1.filter (fun trait => temperament2.contains trait)
    let totalTraits := (temperament1 ++ temperament2).dedup.length
    (commonTraits.length : ℚ) / (totalTraits : ℚ)

/-- Embeds `GeoUtils.toRadians`. -/
noncomputable def toRadians (degrees : ℝ) : ℝ := degrees * (Real.pi / 180)

/-- JavaScript `Math.atan2` on its principal branch (the arguments produced by
the haversine formula are non-negative, where this piecewise definition agrees
with the JavaScript function). -/
noncomputable def atan2 (y x : ℝ) : ℝ :=
  if 0 < x then Real.arctan (y / x)
  else if x < 0 ∧ 0 ≤ y then Real.arctan (y / x) + Real.pi
  else if x < 0 ∧ y < 0 then Real.arctan (y / x) - Real.pi
  else if x = 0 ∧ 0 < y then Real.pi / 2
  else if x = 0 ∧ y < 0 then -(Real.pi / 2)
  else 0

/-- Embeds `GeoUtils.calculateDistance` (haversine), idealized over the reals. -/
noncomputable def calculateDistance (point1 point2 : LocationPoint) : ℝ :=
  let R : ℝ := 6371
  let dLat := toRadians (point2.latitude - point1.latitude)
  let dLon := toRadians (point2.longitude - point1.longitude)
  let a := Real.sin (dLat / 2) * Real.sin (dLat / 2) +
    Real.cos (toRadians point1.latitude) * Real.cos (toRadians point2.latitude) *
      (Real.sin (dLon / 2) * Real.sin (dLon / 2))
  let c := 2 * atan2 (Real.sqrt a) (Real.sqrt (1 - a))
  R * c

/-- The geographic addend of the score: `Math.max(0, 1 - distance / 50) * 15`
when both users carry coordinates, nothing otherwise. -/
noncomputable def geoContribution (user1 user2 : MatchUser) : ℝ :=
  match user1.coordinates, user2.coordinates with
  | some c1, some c2 => max 0 (1 - calculateDistance c1 c2 / 50) * 15
  | _, _ => 0

/-- The expression `dog1.gender !== dog2.gender ? 1 : 0.7`. -/
def genderScore (gender1 gender2 : String) : ℚ :=
  if gender1 ≠ gender2 then 1 else 0.7

/-- JavaScript `Math.round` over the reals. -/
noncomputable def mathRoundR (x : ℝ) : ℤ := ⌊x + 1 / 2⌋

/-- Embeds `MatchingAlgorithm.calculateCompatibilityScore` (seed.ts):
`Math.min(Math.round(score), 100)` of the weighted sub-score sum. -/
noncomputable def calculateCompatibilityScore
    (dog1 dog2 : MatchDog) (user1 user2 : MatchUser) (now : SimpleDate) : ℤ :=
  let score : ℝ :=
    ((getSizeCompatibility dog1.size dog2.size * 20 : ℚ) : ℝ)
    + ((getAgeCompatibility dog1.birthDate dog2.birthDate now * 15 : ℚ) : ℝ)
    + ((getActivityCompatibility dog1.activityLevel dog2.activityLevel * 20 : ℚ) : ℝ)
    + ((getTemperamentCompatibility dog1.temperament dog2.temperament * 20 : ℚ) : ℝ)
    + geoContribution user1 user2
    + ((genderScore dog1.gender dog2.gender * 10 : ℚ) : ℝ)
  min (mathRoundR score) 100

/-- The score when the geographic addend is absent — the exact arithmetic the
source performs when either user lacks coordinates (computable form). -/
def compatibilityScoreNoGeo (dog1 dog2 : MatchDog) (now : SimpleDate) : ℤ :=
  min (mathRound
    (getSizeCompatibility dog1.size dog2.size * 20
      + getAgeCompatibility dog1.birthDate dog2.birthDate now * 15
      + getActivityCompatibility dog1.activityLevel dog2.activityLevel * 20
      + getTemperamentCompatibility dog1.temperament dog2.temperament * 20
      + genderScore dog1.gender dog2.gender * 10)) 100

/-! ### Theorems about the availability engine -/

theorem availGo_eq_filter (bookings : List BookingRec) (endMinutes : ℕ) :
    ∀ (fuel m : ℕ),
      availGo bookings endMinutes fuel m
        = (slotGo 30 endMinutes fuel m).filter (fun x => !isBooked bookings x) := by
  intro fuel
  induction fuel with
  | zero => intro m; rfl
  | succ fuel ih =>
    intro m
    simp only [availGo, slotGo]
    by_cases hm : m < endMinutes
    · have : (0 < 30 ∧ m < endMinutes) := ⟨by norm_num, hm⟩
      rw [if_pos hm, if_pos this, List.filter_cons]
      by_cases hb : isBooked bookings m
      · simp [hb, ih]
      · simp [hb, ih]
    · rw [if_neg hm, if_neg (by simp [hm])]
      rfl

theorem availLoop_eq_filter (bookings : List BookingRec) (endMinutes m : ℕ) :
    availLoop bookings endMinutes m
      = (slotStarts 30 endMinutes m).filter (fun x => !isBooked bookings x) :=
  availGo_eq_filter bookings endMinutes (endMinutes - m) m

theorem mem_slotGo {step endMinutes : ℕ} :
    ∀ {fuel m x : ℕ}, x ∈ slotGo step endMinutes fuel m →
      m ≤ x ∧ x < endMinutes ∧ (x - m) % step = 0 := by
  intro fuel
  induction fuel with
  | zero => intro m x hx; simp [slotGo] at hx
  | succ fuel ih =>
    intro m x hx
    simp only [slotGo] at hx
    by_cases h : 0 < step ∧ m < endMinutes
    · rw [if_pos h] at hx
      rcases List.mem_cons.mp hx with rfl | hx'
      · exact ⟨le_refl x, h.2, by simp⟩
      · obtain ⟨h1, h2, h3⟩ := ih hx'
        refine ⟨by omega, h2, ?_⟩
        have hxm : x - m = (x - (m + step)) + step := by omega
        rw [hxm, Nat.add_mod_right]
        exact h3
    · rw [if_neg h] at hx
      simp at hx

theorem slotGo_sorted (step endMinutes : ℕ) (hstep : 0 < step) :
    ∀ (fuel m : ℕ), (slotGo step endMinutes fuel m).Sorted (· < ·) := by
  intro fuel
  induction fuel with
  | zero => intro m; simp [slotGo]
  | succ fuel ih =>
    intro m
    simp only [slotGo]
    by_cases h : 0 < step ∧ m < endMinutes
    · rw [if_pos h]
      refine List.sorted_cons.mpr ⟨?_, ih (m + step)⟩
      intro b hb
      have := (mem_slotGo hb).1
      omega
    · rw [if_neg h]; simp

theorem mem_slotStarts {step endMinutes m x : ℕ}
    (hx : x ∈ slotStarts step endMinutes m) :
    m ≤ x ∧ x < endMinutes ∧ (x - m) % step = 0 :=
  mem_slotGo hx

theorem slotStarts_sorted (step endMinutes m : ℕ) (hstep : 0 < step) :
    (slotStarts step endMinutes m).Sorted (· < ·) :=
  slotGo_sorted step endMinutes hstep (endMinutes - m) m

/-- Membership in the availability output, for a found day schedule:
a minute is emitted iff it is a candidate slot start whose start instant
lies inside no booked interval. -/
theorem mem_getVeterinarianAvailability
    (workingHours : List WorkingHour) (bookings : List BookingRec)
    (dayOfWeek : ℕ) (ds : WorkingHour)
    (hfind : workingHours.find? (fun wh => wh.dayOfWeek == dayOfWeek && wh.isAvailable)
      = some ds) (m : ℕ) :
    m ∈ getVeterinarianAvailability workingHours bookings dayOfWeek ↔
      (m ∈ slotStarts 30 (ds.endTime.1 * 60 + ds.endTime.2)
            (ds.startTime.1 * 60 + ds.startTime.2) ∧
        ∀ b ∈ bookings, ¬(b.scheduledAt ≤ m ∧ m < b.scheduledAt + b.duration)) := by
  unfold getVeterinarianAvailability
  rw [hfind]
  simp only [availLoop_eq_filter, List.mem_filter]
  constructor
  · rintro ⟨hmem, hbook⟩
    refine ⟨hmem, ?_⟩
    intro b hb hcontra
    simp only [isBooked, Bool.not_eq_true', List.any_eq_false] at hbook
    have := hbook b hb
    simp only [Bool.and_eq_true, decide_eq_true_eq] at this
    exact this ⟨hcontra.1, hcontra.2⟩
  · rintro ⟨hmem, hbook⟩
    refine ⟨hmem, ?_⟩
    simp only [isBooked, Bool.not_eq_true', List.any_eq_false]
    intro b hb
    simp only [Bool.and_eq_true, decide_eq_true_eq]
    intro hcontra
    exact hbook b hb ⟨hcontra.1, hcontra.2⟩

/-- C1, counterexample.  Working window 09:00-10:00, one booking starting
09:15 (minute 555) of duration 30 (so the booked interval is [555, 585)).
The candidate slot 09:00 (minute 540, covering [540, 570)) overlaps the
booking under the claimed half-open overlap test
(`slotStart < bookedEnd && bookedStart < slotEnd`, i.e. `540 < 585 ∧ 555 < 570`),
so the claim says it must be discarded — but the code emits it, because the
code only tests whether the start instant of the slot lies inside a booking. -/
theorem c1_overlap_counterexample :
    540 ∈ getVeterinarianAvailability
        [⟨1, (9, 0), (10, 0), true⟩] [⟨555, 30⟩] 1 ∧
      540 < 555 + 30 ∧ 555 < 540 + 30 := by
  decide

/-- C1, amended.  For a found day schedule, a candidate slot is discarded iff
its START instant lies inside some booked interval
(`bookedStart ≤ slotStart < bookedStart + duration`); the emitted slots are
exactly the candidates whose start lies in no booked interval, in strictly
ascending time order. -/
theorem c1_slot_filter_amended
    (workingHours : List WorkingHour) (bookings : List BookingRec)
    (dayOfWeek : ℕ) (ds : WorkingHour)
    (hfind : workingHours.find? (fun wh => wh.dayOfWeek == dayOfWeek && wh.isAvailable)
      = some ds) :
    (∀ m, m ∈ getVeterinarianAvailability workingHours bookings dayOfWeek ↔
        (m ∈ slotStarts 30 (ds.endTime.1 * 60 + ds.endTime.2)
              (ds.startTime.1 * 60 + ds.startTime.2) ∧
          ∀ b ∈ bookings, ¬(b.scheduledAt ≤ m ∧ m < b.scheduledAt + b.duration))) ∧
      (getVeterinarianAvailability workingHours bookings dayOfWeek).Sorted (· < ·) := by
  refine ⟨mem_getVeterinarianAvailability workingHours bookings dayOfWeek ds hfind, ?_⟩
  unfold getVeterinarianAvailability
  rw [hfind]
  simp only [availLoop_eq_filter]
  exact (slotStarts_sorted 30 _ _ (by norm_num)).filter _

/-- Witness for `c1_slot_filter_amended` at a concrete schedule and booking. -/
theorem c1_slot_filter_amended_witness :
    (∀ m, m ∈ getVeterinarianAvailability
          [⟨1, (9, 0), (10, 0), true⟩] [⟨555, 30⟩] 1 ↔
        (m ∈ slotStarts 30 600 540 ∧
          ∀ b ∈ [(⟨555, 30⟩ : BookingRec)],
            ¬(b.scheduledAt ≤ m ∧ m < b.scheduledAt + b.duration))) ∧
      (getVeterinarianAvailability
        [⟨1, (9, 0), (10, 0), true⟩] [⟨555, 30⟩] 1).Sorted (· < ·) :=
  c1_slot_filter_amended [⟨1, (9, 0), (10, 0), true⟩] [⟨555, 30⟩] 1
    ⟨1, (9, 0), (10, 0), true⟩ (by decide)

/-- C2, counterexample.  Working window 09:00-09:45 (minutes [540, 585)),
slot size 30.  The loop guard is `minutes < endMinutes`, not
`minutes + 30 <= endMinutes`, so the final partial slot 09:30 (minute 570,
with only 15 minutes of window remaining) is emitted even though it does not
lie in `[start, end - s]` — the exclusion of the final partial slot claimed
does not hold. -/
theorem c2_final_slot_counterexample :
    570 ∈ getVeterinarianAvailability [⟨1, (9, 0), (9, 45), true⟩] [] 1 ∧
      (9 * 60 + 45) - 30 < 570 := by
  decide

/-- C2, amended.  Every emitted slot label `m` satisfies
`start ≤ m < end` (not `m ≤ end - s`: the final partial slot is included
when the remaining window is shorter than the stride) and is aligned to
30-minute multiples counted from `start` (the source hard-codes the slot
size to 30). -/
theorem c2_slot_alignment_amended
    (workingHours : List WorkingHour) (bookings : List BookingRec)
    (dayOfWeek : ℕ) (ds : WorkingHour)
    (hfind : workingHours.find? (fun wh => wh.dayOfWeek == dayOfWeek && wh.isAvailable)
      = some ds) :
    ∀ m ∈ getVeterinarianAvailability workingHours bookings dayOfWeek,
      ds.startTime.1 * 60 + ds.startTime.2 ≤ m ∧
        m < ds.endTime.1 * 60 + ds.endTime.2 ∧
        (m - (ds.startTime.1 * 60 + ds.startTime.2)) % 30 = 0 := by
  intro m hm
  have hmem :=
    ((mem_getVeterinarianAvailability workingHours bookings dayOfWeek ds hfind m).mp hm).1
  exact mem_slotStarts hmem

/-- Witness for `c2_slot_alignment_amended` at a concrete schedule and the
concrete emitted slot 570. -/
theorem c2_slot_alignment_amended_witness :
    570 ∈ getVeterinarianAvailability [⟨1, (9, 0), (9, 45), true⟩] [] 1 ∧
      (540 ≤ 570 ∧ 570 < 585 ∧ (570 - 540) % 30 = 0) :=
  ⟨by decide,
    c2_slot_alignment_amended [⟨1, (9, 0), (9, 45), true⟩] [] 1
      ⟨1, (9, 0), (9, 45), true⟩ (by decide) 570 (by decide)⟩

/-- C8.  The availability computation returns the empty list (a value, not an
error) whenever (a) every rule for the queried day of week is unavailable —
in particular when no rule exists for that day, or the matching rule has
`isAvailable = false` — or (b) the found rule has `startTime = endTime`. -/
theorem c8_closed_day_empty
    (workingHours : List WorkingHour) (bookings : List BookingRec) (dayOfWeek : ℕ) :
    ((∀ wh ∈ workingHours, wh.dayOfWeek = dayOfWeek → wh.isAvailable = false) →
        getVeterinarianAvailability workingHours bookings dayOfWeek = []) ∧
      (∀ ds : WorkingHour,
        workingHours.find? (fun wh => wh.dayOfWeek == dayOfWeek && wh.isAvailable)
            = some ds →
          ds.startTime = ds.endTime →
          getVeterinarianAvailability workingHours bookings dayOfWeek = []) := by
  constructor
  · intro h
    have hnone : workingHours.find?
        (fun wh => wh.dayOfWeek == dayOfWeek && wh.isAvailable) = none := by
      rw [List.find?_eq_none]
      intro wh hwh
      simp only [Bool.and_eq_true, beq_iff_eq, not_and]
      intro hd
      simp [h wh hwh hd]
    unfold getVeterinarianAvailability
    rw [hnone]
  · intro ds hfind heq
    unfold getVeterinarianAvailability
    rw [hfind]
    simp only
    have : ds.startTime.1 * 60 + ds.startTime.2 = ds.endTime.1 * 60 + ds.endTime.2 := by
      rw [heq]
    rw [this]
    unfold availLoop
    rw [Nat.sub_self]
    rfl

/-- Witness for `c8_closed_day_empty`: an unavailable-day schedule and an
equal-times schedule both yield the empty slot list. -/
theorem c8_closed_day_empty_witness :
    getVeterinarianAvailability [⟨1, (9, 0), (17, 0), false⟩] [] 1 = [] ∧
      getVeterinarianAvailability [⟨2, (9, 0), (9, 0), true⟩] [] 2 = [] :=
  ⟨(c8_closed_day_empty [⟨1, (9, 0), (17, 0), false⟩] [] 1).1 (by decide),
    (c8_closed_day_empty [⟨2, (9, 0), (9, 0), true⟩] [] 2).2
      ⟨2, (9, 0), (9, 0), true⟩ (by decide) rfl⟩

/-! ### Theorems about the triage scorer -/

/-- Evaluation rule for JavaScript `Math.round`. -/
theorem mathRound_eq {q : ℚ} {z : ℤ} (h1 : (z : ℚ) ≤ q + 1 / 2) (h2 : q + 1 / 2 < z + 1) :
    mathRound q = z := by
  unfold mathRound
  exact Int.floor_eq_iff.mpr ⟨by exact_mod_cast h1, by exact_mod_cast h2⟩

theorem mathRound_nonneg {q : ℚ} (h : 0 ≤ q) : 0 ≤ mathRound q := by
  unfold mathRound
  exact Int.le_floor.mpr (by push_cast; linarith)

theorem mathRound_le {q : ℚ} {n : ℤ} (h : q ≤ (n : ℚ)) : mathRound q ≤ n := by
  unfold mathRound
  have : ⌊q + 1 / 2⌋ < n + 1 := Int.floor_lt.mpr (by push_cast; linarith)
  omega

/-- The score field of the triage result is the normalized rounded ratio,
whatever urgency branch is taken. -/
theorem calculateTriageScore_score (responses : List TriageResponse) :
    (calculateTriageScore responses).score =
      mathRound ((questions.map (fun q =>
          match responses.find? (fun r => r.questionId == q.id) with
          | none => 0
          | some r => questionScore q r)).sum
        / (questions.map (fun q => q.weight)).sum * 100) := by
  unfold calculateTriageScore
  dsimp only
  split_ifs <;> rfl

theorem find?_firstPerId (k : String) :
    ∀ (rs : List TriageResponse) (seen : List String), k ∉ seen →
      (firstPerId rs seen).find? (fun r => r.questionId == k)
        = rs.find? (fun r => r.questionId == k) := by
  intro rs
  induction rs with
  | nil => intro seen _; rfl
  | cons r rs ih =>
    intro seen hk
    simp only [firstPerId]
    by_cases hs : r.questionId ∈ seen
    · rw [if_pos hs]
      have hneq : ¬(fun x : TriageResponse => x.questionId == k) r = true := by
        simp only [beq_iff_eq]
        intro h
        exact hk (h ▸ hs)
      rw [@List.find?_cons_of_neg TriageResponse (fun x => x.questionId == k) r rs hneq]
      exact ih seen hk
    · rw [if_neg hs]
      by_cases hrk : r.questionId = k
      · rw [@List.find?_cons_of_pos TriageResponse (fun x => x.questionId == k) r
            (firstPerId rs (r.questionId :: seen)) (by simp [hrk]),
          @List.find?_cons_of_pos TriageResponse (fun x => x.questionId == k) r rs
            (by simp [hrk])]
      · rw [@List.find?_cons_of_neg TriageResponse (fun x => x.questionId == k) r
            (firstPerId rs (r.questionId :: seen)) (by simp [hrk]),
          @List.find?_cons_of_neg TriageResponse (fun x => x.questionId == k) r rs
            (by simp [hrk])]
        refine ih _ ?_
        intro hmem
        rcases List.mem_cons.mp hmem with h | h
        · exact hrk h.symm
        · exact hk h

theorem find?_filter_bank (k : String) (hk : bankIds.contains k = true) :
    ∀ l : List TriageResponse,
      (l.filter (fun r => bankIds.contains r.questionId)).find?
          (fun r => r.questionId == k)
        = l.find? (fun r => r.questionId == k) := by
  intro l
  induction l with
  | nil => rfl
  | cons r l ih =>
    rw [List.filter_cons]
    by_cases hb : bankIds.contains r.questionId
    · rw [if_pos (by simpa using hb)]
      by_cases hrk : r.questionId = k
      · rw [@List.find?_cons_of_pos TriageResponse (fun x => x.questionId == k) r
            (List.filter (fun x => bankIds.contains x.questionId) l) (by simp [hrk]),
          @List.find?_cons_of_pos TriageResponse (fun x => x.questionId == k) r l
            (by simp [hrk])]
      · rw [@List.find?_cons_of_neg TriageResponse (fun x => x.questionId == k) r
            (List.filter (fun x => bankIds.contains x.questionId) l) (by simp [hrk]),
          @List.find?_cons_of_neg TriageResponse (fun x => x.questionId == k) r l
            (by simp [hrk])]
        exact ih
    · rw [if_neg (by simpa using hb)]
      have hneq : ¬(fun x : TriageResponse => x.questionId == k) r = true := by
        simp only [beq_iff_eq]
        intro h
        rw [h] at hb
        exact hb hk
      rw [@List.find?_cons_of_neg TriageResponse (fun x => x.questionId == k) r l hneq]
      exact ih

/-- C10.  The triage result ignores responses whose `questionId` is outside
the fixed eight-question bank, and when several responses share an id only
the first occurrence in the list is used: scoring a list equals scoring its
restriction to the first response per bank question id. -/
theorem c10_first_response_only (responses : List TriageResponse) :
    calculateTriageScore responses = calculateTriageScore (restrictResponses responses) := by
  have hfind : ∀ q ∈ questions,
      (restrictResponses responses).find? (fun r => r.questionId == q.id)
        = responses.find? (fun r => r.questionId == q.id) := by
    intro q hq
    unfold restrictResponses
    have hbank : bankIds.contains q.id = true := by
      have : q.id ∈ bankIds := by
        unfold bankIds
        exact List.mem_map.mpr ⟨q, hq, rfl⟩
      exact List.elem_eq_true_of_mem this
    rw [find?_filter_bank q.id hbank, find?_firstPerId q.id responses [] (by simp)]
  have hmap : questions.map (fun q =>
        match (restrictResponses responses).find? (fun r => r.questionId == q.id) with
        | none => (0 : ℚ)
        | some r => questionScore q r)
      = questions.map (fun q =>
        match responses.find? (fun r => r.questionId == q.id) with
        | none => (0 : ℚ)
        | some r => questionScore q r) := by
    refine List.map_congr_left ?_
    intro q hq
    rw [hfind q hq]
  unfold calculateTriageScore
  rw [hmap]

theorem bool_term_eq (o : Option TriageResponse) (w : ℚ) :
    boolTerm o w = specBoolScore (o.map (fun r => r.answer)) w false := by
  cases o <;> rfl

theorem boolInv_term_eq (o : Option TriageResponse) (w : ℚ) :
    boolInvTerm o w = specBoolScore (o.map (fun r => r.answer)) w true := by
  cases o <;> rfl

theorem scale_term_eq (o : Option TriageResponse) (w : ℚ)
    (h : ∀ r, o = some r → scaleAnswerNumeric r.answer = true) :
    scaleTerm o w = specScaleScore (o.map (fun r => r.answer)) w := by
  unfold scaleTerm
  cases o with
  | none => rfl
  | some r =>
    have hr := h r rfl
    cases ha : r.answer with
    | num x => simp [specScaleScore, jsToNumber, ha]
    | bool b => rw [ha] at hr; simp [scaleAnswerNumeric] at hr
    | str s => rw [ha] at hr; simp [scaleAnswerNumeric] at hr

theorem multiple_term_eq (o : Option TriageResponse) (opts : List String) (w : ℚ)
    (h : ∀ r, o = some r → ∃ s, r.answer = .str s ∧ s ∈ opts) :
    multipleTerm o opts w = specMultipleScore (o.map (fun r => r.answer)) opts w := by
  unfold multipleTerm
  cases o with
  | none => rfl
  | some r =>
    obtain ⟨s, hs, hmem⟩ := h r rfl
    rcases hfi : opts.findIdx? (fun o => o == s) with _ | i
    · exfalso
      have := List.findIdx?_eq_none_iff.mp hfi s hmem
      simp at this
    · simp [hs, indexOfAnswer, specMultipleScore, hfi]

/-- C3.  The triage score is `round(100 × totalScore / maxPossibleScore)` with
`maxPossibleScore` the sum of all eight bank weights (unanswered questions
keep their weight in the denominator and contribute 0 to the numerator); the
two positive-phrased boolean questions (consciousness, appetite) score full
weight exactly when answered `false`, the other booleans exactly when
answered `true`; scale answers score `(answer/10) × weight`; multiple-choice
answers score `(optionIndex / (numOptions − 1)) × weight`.  Stated for
response lists whose `pain_level` answers are numeric and whose `bleeding`
answers are among the options of the question, as the formulas of the claim
presuppose. -/
theorem c3_triage_score_formula (responses : List TriageResponse)
    (hscale : ∀ r ∈ responses, r.questionId = "pain_level" →
      scaleAnswerNumeric r.answer = true)
    (hmult : ∀ r ∈ responses, r.questionId = "bleeding" →
      multipleAnswerOK r.answer = true) :
    (calculateTriageScore responses).score = specTriageScore responses := by
  rw [calculateTriageScore_score]
  have hM : (questions.map (fun q => q.weight)).sum = (52 : ℚ) := by
    simp only [questions, List.map_cons, List.map_nil, List.sum_cons, List.sum_nil]
    norm_num
  have hsc : ∀ r, responses.find? (fun r => r.questionId == "pain_level") = some r →
      scaleAnswerNumeric r.answer = true := by
    intro r hr
    exact hscale r (List.mem_of_find?_eq_some hr) (by simpa using List.find?_some hr)
  have hmu : ∀ r, responses.find? (fun r => r.questionId == "bleeding") = some r →
      ∃ s, r.answer = .str s ∧ s ∈ ["Nessuno", "Lieve", "Moderato", "Grave"] := by
    intro r hr
    have hid : r.questionId = "bleeding" := by simpa using List.find?_some hr
    have hok := hmult r (List.mem_of_find?_eq_some hr) hid
    cases ha : r.answer with
    | str s =>
      refine ⟨s, rfl, ?_⟩
      rw [ha] at hok
      simpa [multipleAnswerOK] using hok
    | bool b => rw [ha] at hok; simp [multipleAnswerOK] at hok
    | num x => rw [ha] at hok; simp [multipleAnswerOK] at hok
  have e1 := bool_term_eq (responses.find? (fun r => r.questionId == "breathing_difficulty")) 10
  have e2 := boolInv_term_eq (responses.find? (fun r => r.questionId == "consciousness")) 9
  have e3 := multiple_term_eq (responses.find? (fun r => r.questionId == "bleeding"))
    ["Nessuno", "Lieve", "Moderato", "Grave"] 8 hmu
  have e4 := scale_term_eq (responses.find? (fun r => r.questionId == "pain_level")) 7 hsc
  have e5 := bool_term_eq (responses.find? (fun r => r.questionId == "vomiting")) 5
  have e6 := boolInv_term_eq (responses.find? (fun r => r.questionId == "appetite")) 4
  have e7 := bool_term_eq (responses.find? (fun r => r.questionId == "mobility")) 6
  have e8 := bool_term_eq (responses.find? (fun r => r.questionId == "previous_issues")) 3
  have hT : (questions.map (fun q =>
      match responses.find? (fun r => r.questionId == q.id) with
      | none => (0 : ℚ)
      | some r => questionScore q r)).sum = specTotalScore responses := by
    show boolTerm (responses.find? (fun r => r.questionId == "breathing_difficulty")) 10
      + (boolInvTerm (responses.find? (fun r => r.questionId == "consciousness")) 9
      + (multipleTerm (responses.find? (fun r => r.questionId == "bleeding"))
          ["Nessuno", "Lieve", "Moderato", "Grave"] 8
      + (scaleTerm (responses.find? (fun r => r.questionId == "pain_level")) 7
      + (boolTerm (responses.find? (fun r => r.questionId == "vomiting")) 5
      + (boolInvTerm (responses.find? (fun r => r.questionId == "appetite")) 4
      + (boolTerm (responses.find? (fun r => r.questionId == "mobility")) 6
      + (boolTerm (responses.find? (fun r => r.questionId == "previous_issues")) 3
      + 0)))))))
      = specTotalScore responses
    rw [e1, e2, e3, e4, e5, e6, e7, e8]
    unfold specTotalScore specAnswer
    ring
  rw [hM, hT]
  unfold specTriageScore specMaxPossibleScore
  congr 1
  ring

/-- Witness for `c3_triage_score_formula` on a concrete response list. -/
theorem c3_triage_score_formula_witness :
    (calculateTriageScore
        [⟨"bleeding", .str ("Lieve")⟩, ⟨"consciousness", .bool true⟩,
          ⟨"pain_level", .num 4⟩]).score
      = specTriageScore
        [⟨"bleeding", .str ("Lieve")⟩, ⟨"consciousness", .bool true⟩,
          ⟨"pain_level", .num 4⟩] :=
  c3_triage_score_formula
    [⟨"bleeding", .str ("Lieve")⟩, ⟨"consciousness", .bool true⟩, ⟨"pain_level", .num 4⟩]
    (by simp [scaleAnswerNumeric]) (by simp [multipleAnswerOK])

theorem questions_weight_sum : (questions.map (fun q => q.weight)).sum = (52 : ℚ) := by
  simp only [questions, List.map_cons, List.map_nil, List.sum_cons, List.sum_nil]
  norm_num

/-- The accumulated numerator, written as the sum of the eight per-question
contribution terms (definitionally equal to the map-and-sum form). -/
theorem triage_total_eq_terms (responses : List TriageResponse) :
    (questions.map (fun q =>
      match responses.find? (fun r => r.questionId == q.id) with
      | none => (0 : ℚ)
      | some r => questionScore q r)).sum
    = boolTerm (responses.find? (fun r => r.questionId == "breathing_difficulty")) 10
      + (boolInvTerm (responses.find? (fun r => r.questionId == "consciousness")) 9
      + (multipleTerm (responses.find? (fun r => r.questionId == "bleeding"))
          ["Nessuno", "Lieve", "Moderato", "Grave"] 8
      + (scaleTerm (responses.find? (fun r => r.questionId == "pain_level")) 7
      + (boolTerm (responses.find? (fun r => r.questionId == "vomiting")) 5
      + (boolInvTerm (responses.find? (fun r => r.questionId == "appetite")) 4
      + (boolTerm (responses.find? (fun r => r.questionId == "mobility")) 6
      + (boolTerm (responses.find? (fun r => r.questionId == "previous_issues")) 3
      + 0))))))) := rfl

theorem boolTerm_bounds (o : Option TriageResponse) (w : ℚ) (hw : 0 ≤ w) :
    0 ≤ boolTerm o w ∧ boolTerm o w ≤ w := by
  unfold boolTerm
  cases o with
  | none => exact ⟨le_refl 0, hw⟩
  | some r =>
    dsimp only
    split_ifs
    · exact ⟨hw, le_refl w⟩
    · exact ⟨le_refl 0, hw⟩

theorem boolInvTerm_bounds (o : Option TriageResponse) (w : ℚ) (hw : 0 ≤ w) :
    0 ≤ boolInvTerm o w ∧ boolInvTerm o w ≤ w := by
  unfold boolInvTerm
  cases o with
  | none => exact ⟨le_refl 0, hw⟩
  | some r =>
    dsimp only
    split_ifs
    · exact ⟨hw, le_refl w⟩
    · exact ⟨le_refl 0, hw⟩

theorem scaleTerm_bounds (o : Option TriageResponse) (w : ℚ) (hw : 0 ≤ w)
    (h : ∀ r, o = some r → scaleAnswerOK r.answer = true) :
    0 ≤ scaleTerm o w ∧ scaleTerm o w ≤ w := by
  unfold scaleTerm
  cases o with
  | none => exact ⟨le_refl 0, hw⟩
  | some r =>
    dsimp only
    have hr := h r rfl
    cases ha : r.answer with
    | num x =>
      rw [ha] at hr
      simp only [scaleAnswerOK, decide_eq_true_eq] at hr
      simp only [jsToNumber]
      constructor
      · have : (0 : ℚ) ≤ x / 10 := by linarith [hr.1]
        exact mul_nonneg this hw
      · have hx : x / 10 ≤ 1 := by linarith [hr.2]
        calc x / 10 * w ≤ 1 * w :=
              mul_le_mul_of_nonneg_right hx hw
          _ = w := one_mul w
    | bool b => rw [ha] at hr; simp [scaleAnswerOK] at hr
    | str s => rw [ha] at hr; simp [scaleAnswerOK] at hr

theorem multipleTerm_bounds (o : Option TriageResponse)
    (h : ∀ r, o = some r → multipleAnswerOK r.answer = true) :
    0 ≤ multipleTerm o ["Nessuno", "Lieve", "Moderato", "Grave"] 8 ∧
      multipleTerm o ["Nessuno", "Lieve", "Moderato", "Grave"] 8 ≤ 8 := by
  unfold multipleTerm
  cases o with
  | none => norm_num
  | some r =>
    dsimp only
    have hr := h r rfl
    cases ha : r.answer with
    | str s =>
      rw [ha] at hr
      simp only [multipleAnswerOK] at hr
      have hs : s = "Nessuno" ∨ s = "Lieve" ∨ s = "Moderato" ∨ s = "Grave" := by
        simpa using hr
      rcases hs with rfl | rfl | rfl | rfl <;>
        simp [indexOfAnswer, List.findIdx?_cons] <;> norm_num
    | bool b => rw [ha] at hr; simp [multipleAnswerOK] at hr
    | num x => rw [ha] at hr; simp [multipleAnswerOK] at hr

/-- C9, counterexample.  The claim quantifies over every response list, but a
`pain_level` response carrying the (type-correct) numeric answer 100 drives
the score to 135 > 100; the stated bounds only hold for answers within the
documented ranges. -/
theorem c9_bounds_counterexample :
    (calculateTriageScore [⟨"pain_level", .num 100⟩]).score = 135 ∧
      100 < (calculateTriageScore [⟨"pain_level", .num 100⟩]).score := by
  have h : (calculateTriageScore [⟨"pain_level", .num 100⟩]).score = 135 := by
    rw [calculateTriageScore_score, triage_total_eq_terms, questions_weight_sum]
    simp only [boolTerm, boolInvTerm, multipleTerm, scaleTerm, jsToNumber,
      List.find?, String.reduceBEq]
    norm_num
    exact mathRound_eq (by norm_num) (by norm_num)
  exact ⟨h, by rw [h]; norm_num⟩

/-- C9, amended.  For response lists whose `pain_level` answers are numbers in
the documented 0-10 range and whose `bleeding` answers are among the
options of the question, the score lies in [0, 100]; the worst-case response set
(every question answered with its maximally severe answer) yields urgency
`critical`; the empty response list yields score 0 and urgency `low`. -/
theorem c9_triage_bounds_amended :
    (∀ responses : List TriageResponse,
        (∀ r ∈ responses, r.questionId = "pain_level" → scaleAnswerOK r.answer = true) →
        (∀ r ∈ responses, r.questionId = "bleeding" → multipleAnswerOK r.answer = true) →
        0 ≤ (calculateTriageScore responses).score ∧
          (calculateTriageScore responses).score ≤ 100) ∧
      (calculateTriageScore
          [⟨"breathing_difficulty", .bool true⟩, ⟨"consciousness", .bool false⟩,
            ⟨"bleeding", .str ("Grave")⟩, ⟨"pain_level", .num 10⟩,
            ⟨"vomiting", .bool true⟩, ⟨"appetite", .bool false⟩,
            ⟨"mobility", .bool true⟩, ⟨"previous_issues", .bool true⟩]).urgencyLevel
        = .critical ∧
      (calculateTriageScore []).score = 0 ∧
      (calculateTriageScore []).urgencyLevel = .low := by
  refine ⟨?_, ?_, ?_, ?_⟩
  · intro responses hscale hmult
    rw [calculateTriageScore_score, triage_total_eq_terms, questions_weight_sum]
    obtain ⟨h1a, h1b⟩ := boolTerm_bounds
      (responses.find? (fun r => r.questionId == "breathing_difficulty")) 10 (by norm_num)
    obtain ⟨h2a, h2b⟩ := boolInvTerm_bounds
      (responses.find? (fun r => r.questionId == "consciousness")) 9 (by norm_num)
    obtain ⟨h3a, h3b⟩ := multipleTerm_bounds
      (responses.find? (fun r => r.questionId == "bleeding"))
      (fun r hr => hmult r (List.mem_of_find?_eq_some hr)
        (by simpa using List.find?_some hr))
    obtain ⟨h4a, h4b⟩ := scaleTerm_bounds
      (responses.find? (fun r => r.questionId == "pain_level")) 7 (by norm_num)
      (fun r hr => hscale r (List.mem_of_find?_eq_some hr)
        (by simpa using List.find?_some hr))
    obtain ⟨h5a, h5b⟩ := boolTerm_bounds
      (responses.find? (fun r => r.questionId == "vomiting")) 5 (by norm_num)
    obtain ⟨h6a, h6b⟩ := boolInvTerm_bounds
      (responses.find? (fun r => r.questionId == "appetite")) 4 (by norm_num)
    obtain ⟨h7a, h7b⟩ := boolTerm_bounds
      (responses.find? (fun r => r.questionId == "mobility")) 6 (by norm_num)
    obtain ⟨h8a, h8b⟩ := boolTerm_bounds
      (responses.find? (fun r => r.questionId == "previous_issues")) 3 (by norm_num)
    constructor
    · apply mathRound_nonneg
      have hT0 : (0 : ℚ) ≤ boolTerm
            (responses.find? (fun r => r.questionId == "breathing_difficulty")) 10
          + (boolInvTerm (responses.find? (fun r => r.questionId == "consciousness")) 9
          + (multipleTerm (responses.find? (fun r => r.questionId == "bleeding"))
              ["Nessuno", "Lieve", "Moderato", "Grave"] 8
          + (scaleTerm (responses.find? (fun r => r.questionId == "pain_level")) 7
          + (boolTerm (responses.find? (fun r => r.questionId == "vomiting")) 5
          + (boolInvTerm (responses.find? (fun r => r.questionId == "appetite")) 4
          + (boolTerm (responses.find? (fun r => r.questionId == "mobility")) 6
          + (boolTerm (responses.find? (fun r => r.questionId == "previous_issues")) 3
          + 0))))))) := by linarith
      exact mul_nonneg (div_nonneg hT0 (by norm_num)) (by norm_num)
    · apply mathRound_le
      have hT52 : boolTerm
            (responses.find? (fun r => r.questionId == "breathing_difficulty")) 10
          + (boolInvTerm (responses.find? (fun r => r.questionId == "consciousness")) 9
          + (multipleTerm (responses.find? (fun r => r.questionId == "bleeding"))
              ["Nessuno", "Lieve", "Moderato", "Grave"] 8
          + (scaleTerm (responses.find? (fun r => r.questionId == "pain_level")) 7
          + (boolTerm (responses.find? (fun r => r.questionId == "vomiting")) 5
          + (boolInvTerm (responses.find? (fun r => r.questionId == "appetite")) 4
          + (boolTerm (responses.find? (fun r => r.questionId == "mobility")) 6
          + (boolTerm (responses.find? (fun r => r.questionId == "previous_issues")) 3
          + 0))))))) ≤ 52 := by linarith
      push_cast
      rw [div_mul_eq_mul_div, div_le_iff₀ (by norm_num : (0 : ℚ) < 52)]
      nlinarith
  · simp [calculateTriageScore, questions, questionScore, jsToNumber, indexOfAnswer,
      List.find?]
    norm_num
    rw [show mathRound (100 : ℚ) = 100 from mathRound_eq (by norm_num) (by norm_num)]
    norm_num
  · simp [calculateTriageScore, questions, questionScore, List.find?]
    rw [show mathRound (0 : ℚ) = 0 from mathRound_eq (by norm_num) (by norm_num)]
    norm_num
  · simp [calculateTriageScore, questions, questionScore, List.find?]
    rw [show mathRound (0 : ℚ) = 0 from mathRound_eq (by norm_num) (by norm_num)]
    norm_num

/-- Witness for the quantified conjunct of `c9_triage_bounds_amended` at a
concrete well-formed response list. -/
theorem c9_triage_bounds_amended_witness :
    0 ≤ (calculateTriageScore [⟨"vomiting", .bool true⟩, ⟨"pain_level", .num 5⟩]).score ∧
      (calculateTriageScore [⟨"vomiting", .bool true⟩, ⟨"pain_level", .num 5⟩]).score ≤ 100 :=
  c9_triage_bounds_amended.1 [⟨"vomiting", .bool true⟩, ⟨"pain_level", .num 5⟩]
    (by
      intro r hr
      fin_cases hr
      · simp
      · simp [scaleAnswerOK]
        norm_num)
    (by intro r hr; fin_cases hr <;> simp [multipleAnswerOK])

/-! ### Theorems about the matching engine -/

theorem mathRoundR_ratCast (q : ℚ) : mathRoundR (q : ℝ) = mathRound q := by
  unfold mathRoundR mathRound
  rw [show ((q : ℝ) + 1 / 2) = (((q + 1 / 2 : ℚ) : ℝ)) by push_cast; ring, Rat.floor_cast]

theorem getSizeCompatibility_comm (size1 size2 : DogSize) :
    getSizeCompatibility size1 size2 = getSizeCompatibility size2 size1 := by
  simp only [getSizeCompatibility]
  rw [abs_sub_comm]

theorem getActivityCompatibility_comm (level1 level2 : ActivityLevel) :
    getActivityCompatibility level1 level2 = getActivityCompatibility level2 level1 := by
  simp only [getActivityCompatibility]
  rw [abs_sub_comm]

theorem getAgeCompatibility_comm (birthDate1 birthDate2 now : SimpleDate) :
    getAgeCompatibility birthDate1 birthDate2 now
      = getAgeCompatibility birthDate2 birthDate1 now := by
  simp only [getAgeCompatibility]
  rw [abs_sub_comm]

theorem genderScore_comm (gender1 gender2 : String) :
    genderScore gender1 gender2 = genderScore gender2 gender1 := by
  unfold genderScore
  by_cases h : gender1 = gender2
  · subst h; rfl
  · rw [if_pos h, if_pos (Ne.symm h)]

/-- The `commonTraits` count of a duplicate-free list is the cardinality of
the intersection of the two tag sets. -/
theorem length_filter_contains (u v : List String) (hu : u.Nodup) :
    (u.filter (fun trait => v.contains trait)).length
      = (u.toFinset ∩ v.toFinset).card := by
  have hnd : (u.filter (fun trait => v.contains trait)).Nodup := hu.filter _
  rw [← List.toFinset_card_of_nodup hnd, List.toFinset_filter]
  congr 1
  apply Finset.filter_congr ?_ |>.trans Finset.filter_mem_eq_inter
  intro x _
  simp [List.contains]

theorem getTemperamentCompatibility_comm (temperament1 temperament2 : List String)
    (h1 : temperament1.Nodup) (h2 : temperament2.Nodup) :
    getTemperamentCompatibility temperament1 temperament2
      = getTemperamentCompatibility temperament2 temperament1 := by
  unfold getTemperamentCompatibility
  by_cases he : temperament1.isEmpty || temperament2.isEmpty
  · rw [if_pos he, if_pos (by rwa [Bool.or_comm] at he)]
  · rw [if_neg he, if_neg (by rwa [Bool.or_comm] at he)]
    have hnum : (temperament1.filter (fun trait => temperament2.contains trait)).length
        = (temperament2.filter (fun trait => temperament1.contains trait)).length := by
      rw [length_filter_contains _ _ h1, length_filter_contains _ _ h2,
        Finset.inter_comm]
    have hden : (temperament1 ++ temperament2).dedup.length
        = (temperament2 ++ temperament1).dedup.length := by
      rw [← List.card_toFinset, ← List.card_toFinset, List.toFinset_append,
        List.toFinset_append, Finset.union_comm]
    dsimp only
    rw [hnum, hden]

/-- The haversine intermediate value is symmetric in the two points. -/
theorem haversine_sym (p q : LocationPoint) :
    Real.sin (toRadians (q.latitude - p.latitude) / 2) *
          Real.sin (toRadians (q.latitude - p.latitude) / 2) +
        Real.cos (toRadians p.latitude) * Real.cos (toRadians q.latitude) *
          (Real.sin (toRadians (q.longitude - p.longitude) / 2) *
            Real.sin (toRadians (q.longitude - p.longitude) / 2))
      = Real.sin (toRadians (p.latitude - q.latitude) / 2) *
          Real.sin (toRadians (p.latitude - q.latitude) / 2) +
        Real.cos (toRadians q.latitude) * Real.cos (toRadians p.latitude) *
          (Real.sin (toRadians (p.longitude - q.longitude) / 2) *
            Real.sin (toRadians (p.longitude - q.longitude) / 2)) := by
  have h1 : toRadians (q.latitude - p.latitude) / 2
      = -(toRadians (p.latitude - q.latitude) / 2) := by
    unfold toRadians; ring
  have h2 : toRadians (q.longitude - p.longitude) / 2
      = -(toRadians (p.longitude - q.longitude) / 2) := by
    unfold toRadians; ring
  rw [h1, h2, Real.sin_neg, Real.sin_neg]
  ring

theorem calculateDistance_comm (point1 point2 : LocationPoint) :
    calculateDistance point1 point2 = calculateDistance point2 point1 := by
  simp only [calculateDistance]
  rw [haversine_sym]

theorem geoContribution_comm (user1 user2 : MatchUser) :
    geoContribution user1 user2 = geoContribution user2 user1 := by
  obtain ⟨c1⟩ := user1
  obtain ⟨c2⟩ := user2
  cases c1 with
  | none => cases c2 <;> rfl
  | some p =>
    cases c2 with
    | none => rfl
    | some q =>
      show max 0 (1 - calculateDistance p q / 50) * 15
        = max 0 (1 - calculateDistance q p / 50) * 15
      rw [calculateDistance_comm]

/-- When either user lacks coordinates the geographic addend vanishes and the
score is the (computable) geography-free arithmetic. -/
theorem score_noGeo (dog1 dog2 : MatchDog) (user1 user2 : MatchUser) (now : SimpleDate)
    (h : user1.coordinates = none ∨ user2.coordinates = none) :
    calculateCompatibilityScore dog1 dog2 user1 user2 now
      = compatibilityScoreNoGeo dog1 dog2 now := by
  have hg : geoContribution user1 user2 = 0 := by
    obtain ⟨c1⟩ := user1
    obtain ⟨c2⟩ := user2
    simp only at h
    rcases h with rfl | rfl
    · rfl
    · cases c1 <;> rfl
  simp only [calculateCompatibilityScore, compatibilityScoreNoGeo, hg]
  congr 1
  rw [← mathRoundR_ratCast]
  congr 1
  push_cast
  ring

theorem getSizeCompatibility_self (s : DogSize) : getSizeCompatibility s s = 1 := by
  simp only [getSizeCompatibility]
  rw [sub_self, abs_zero]
  norm_num

theorem getActivityCompatibility_self (l : ActivityLevel) :
    getActivityCompatibility l l = 1 := by
  simp only [getActivityCompatibility]
  rw [sub_self, abs_zero]
  norm_num

theorem getAgeCompatibility_self (b now : SimpleDate) :
    getAgeCompatibility b b now = 1 := by
  simp only [getAgeCompatibility]
  rw [sub_self, abs_zero]
  norm_num

theorem getTemperamentCompatibility_self (t : List String)
    (hnd : t.Nodup) (hne : t ≠ []) : getTemperamentCompatibility t t = 1 := by
  unfold getTemperamentCompatibility
  rw [if_neg (by simp [List.isEmpty_eq_false.mpr hne])]
  dsimp only
  have hfilter : t.filter (fun trait => t.contains trait) = t :=
    List.filter_eq_self.mpr (fun a ha => by simpa [List.contains] using ha)
  have hden : (t ++ t).dedup.length = t.length := by
    rw [← List.card_toFinset, List.toFinset_append, Finset.union_self,
      List.toFinset_card_of_nodup hnd]
  rw [hfilter, hden]
  have hpos : 0 < t.length := List.length_pos.mpr hne
  rw [div_self]
  exact_mod_cast hpos.ne.symm

theorem getSizeCompatibility_le_one (size1 size2 : DogSize) :
    getSizeCompatibility size1 size2 ≤ 1 := by
  simp only [getSizeCompatibility]
  apply max_le (by norm_num)
  have h : (0 : ℚ) ≤ ((|sizeIndex size1 - sizeIndex size2| : ℤ) : ℚ) := by
    exact_mod_cast abs_nonneg (sizeIndex size1 - sizeIndex size2)
  nlinarith

theorem getActivityCompatibility_le_one (level1 level2 : ActivityLevel) :
    getActivityCompatibility level1 level2 ≤ 1 := by
  simp only [getActivityCompatibility]
  apply max_le (by norm_num)
  have h : (0 : ℚ) ≤ ((|activityIndex level1 - activityIndex level2| : ℤ) : ℚ) := by
    exact_mod_cast abs_nonneg (activityIndex level1 - activityIndex level2)
  nlinarith

theorem getAgeCompatibility_le_one (birthDate1 birthDate2 now : SimpleDate) :
    getAgeCompatibility birthDate1 birthDate2 now ≤ 1 := by
  simp only [getAgeCompatibility]
  split_ifs <;> norm_num

theorem genderScore_le_one (gender1 gender2 : String) :
    genderScore gender1 gender2 ≤ 1 := by
  unfold genderScore
  split_ifs <;> norm_num

theorem getTemperamentCompatibility_le_one (temperament1 temperament2 : List String)
    (h1 : temperament1.Nodup) :
    getTemperamentCompatibility temperament1 temperament2 ≤ 1 := by
  unfold getTemperamentCompatibility
  split_ifs with he
  · norm_num
  · dsimp only
    have hne1 : temperament1 ≠ [] := by
      rcases Bool.or_eq_false_iff.mp (Bool.not_eq_true _ |>.mp he) with ⟨ha, _⟩
      exact List.isEmpty_eq_false.mp ha
    have hpos : 0 < (temperament1 ++ temperament2).dedup.length := by
      apply List.length_pos.mpr
      rw [Ne, List.dedup_eq_nil]
      simp [hne1]
    rw [div_le_one (by exact_mod_cast hpos)]
    have hle : (temperament1.filter (fun trait => temperament2.contains trait)).length
        ≤ (temperament1 ++ temperament2).dedup.length := by
      rw [length_filter_contains _ _ h1, ← List.card_toFinset, List.toFinset_append]
      exact Finset.card_le_card Finset.inter_subset_union
    exact_mod_cast hle

/-- C4.  `scoreCompatibility` is symmetric: every sub-score rule — size, age,
activity, temperament overlap (for set-valued, i.e. duplicate-free, tag
lists), geographic distance, gender contrast — is symmetric in its two
arguments, hence so is the total score. -/
theorem c4_score_symmetric (dog1 dog2 : MatchDog) (user1 user2 : MatchUser)
    (now : SimpleDate)
    (h1 : dog1.temperament.Nodup) (h2 : dog2.temperament.Nodup) :
    calculateCompatibilityScore dog1 dog2 user1 user2 now
      = calculateCompatibilityScore dog2 dog1 user2 user1 now := by
  simp only [calculateCompatibilityScore]
  rw [getSizeCompatibility_comm, getAgeCompatibility_comm, getActivityCompatibility_comm,
    getTemperamentCompatibility_comm _ _ h1 h2, geoContribution_comm, genderScore_comm]

/-- Witness for `c4_score_symmetric` at concrete candidates. -/
theorem c4_score_symmetric_witness :
    calculateCompatibilityScore
        ⟨.small, ⟨2021, 5, 10⟩, .low, ["calm"], "femmina"⟩
        ⟨.giant, ⟨2018, 2, 3⟩, .veryHigh, ["energetic", "playful"], "maschio"⟩
        ⟨none⟩ ⟨none⟩ ⟨2026, 10, 11⟩
      = calculateCompatibilityScore
        ⟨.giant, ⟨2018, 2, 3⟩, .veryHigh, ["energetic", "playful"], "maschio"⟩
        ⟨.small, ⟨2021, 5, 10⟩, .low, ["calm"], "femmina"⟩
        ⟨none⟩ ⟨none⟩ ⟨2026, 10, 11⟩ :=
  c4_score_symmetric _ _ _ _ _ (by simp) (by simp)

/-- C5, counterexample.  The age sub-score reads the current clock
(`dayjs()` inside `DateUtils.calculateAge`), so the same two candidates
compared at two different instants can receive different scores: dogs born
2020-01-01 and 2022-06-01 score 81 on 2026-03-01 (whole-year ages 6 and 3)
but 85 on 2026-07-01 (ages 6 and 4). -/
theorem c5_clock_counterexample :
    calculateCompatibilityScore
        ⟨.medium, ⟨2020, 1, 1⟩, .high, ["friendly"], "maschio"⟩
        ⟨.medium, ⟨2022, 6, 1⟩, .high, ["friendly"], "femmina"⟩
        ⟨none⟩ ⟨none⟩ ⟨2026, 3, 1⟩ = 81 ∧
      calculateCompatibilityScore
        ⟨.medium, ⟨2020, 1, 1⟩, .high, ["friendly"], "maschio"⟩
        ⟨.medium, ⟨2022, 6, 1⟩, .high, ["friendly"], "femmina"⟩
        ⟨none⟩ ⟨none⟩ ⟨2026, 7, 1⟩ = 85 ∧
      calculateCompatibilityScore
        ⟨.medium, ⟨2020, 1, 1⟩, .high, ["friendly"], "maschio"⟩
        ⟨.medium, ⟨2022, 6, 1⟩, .high, ["friendly"], "femmina"⟩
        ⟨none⟩ ⟨none⟩ ⟨2026, 3, 1⟩
        ≠ calculateCompatibilityScore
          ⟨.medium, ⟨2020, 1, 1⟩, .high, ["friendly"], "maschio"⟩
          ⟨.medium, ⟨2022, 6, 1⟩, .high, ["friendly"], "femmina"⟩
          ⟨none⟩ ⟨none⟩ ⟨2026, 7, 1⟩ := by
  have e1 : compatibilityScoreNoGeo
      ⟨.medium, ⟨2020, 1, 1⟩, .high, ["friendly"], "maschio"⟩
      ⟨.medium, ⟨2022, 6, 1⟩, .high, ["friendly"], "femmina"⟩ ⟨2026, 3, 1⟩ = 81 := by
    simp [compatibilityScoreNoGeo, getSizeCompatibility, sizeIndex, sizeOrder,
      getAgeCompatibility, calculateAgeYears, getActivityCompatibility, activityIndex,
      activityOrder, getTemperamentCompatibility, genderScore, List.findIdx?]
    norm_num
    rw [show mathRound (161 / 2 : ℚ) = 81 from mathRound_eq (by norm_num) (by norm_num)]
    norm_num
  have e2 : compatibilityScoreNoGeo
      ⟨.medium, ⟨2020, 1, 1⟩, .high, ["friendly"], "maschio"⟩
      ⟨.medium, ⟨2022, 6, 1⟩, .high, ["friendly"], "femmina"⟩ ⟨2026, 7, 1⟩ = 85 := by
    simp [compatibilityScoreNoGeo, getSizeCompatibility, sizeIndex, sizeOrder,
      getAgeCompatibility, calculateAgeYears, getActivityCompatibility, activityIndex,
      activityOrder, getTemperamentCompatibility, genderScore, List.findIdx?]
    norm_num
    rw [show mathRound (85 : ℚ) = 85 from mathRound_eq (by norm_num) (by norm_num)]
    norm_num
  have h1 : calculateCompatibilityScore
      ⟨.medium, ⟨2020, 1, 1⟩, .high, ["friendly"], "maschio"⟩
      ⟨.medium, ⟨2022, 6, 1⟩, .high, ["friendly"], "femmina"⟩
      ⟨none⟩ ⟨none⟩ ⟨2026, 3, 1⟩ = 81 := by
    rw [score_noGeo _ _ _ _ _ (Or.inl rfl)]
    exact e1
  have h2 : calculateCompatibilityScore
      ⟨.medium, ⟨2020, 1, 1⟩, .high, ["friendly"], "maschio"⟩
      ⟨.medium, ⟨2022, 6, 1⟩, .high, ["friendly"], "femmina"⟩
      ⟨none⟩ ⟨none⟩ ⟨2026, 7, 1⟩ = 85 := by
    rw [score_noGeo _ _ _ _ _ (Or.inl rfl)]
    exact e2
  refine ⟨h1, h2, ?_⟩
  rw [h1, h2]
  norm_num

/-- C5, amended.  `scoreCompatibility` involves no randomness: it is a pure
function of the candidate attributes and the current clock reading, and the
clock enters only through the computed whole-year ages of the dogs — whenever the
two clock readings assign both dogs the same whole-year ages, the scores
coincide (in particular, two invocations at the same instant always agree).
It does, however, depend on the clock, as the counterexample shows. -/
theorem c5_clock_dependence_amended (dog1 dog2 : MatchDog) (user1 user2 : MatchUser)
    (now now' : SimpleDate)
    (h1 : calculateAgeYears now dog1.birthDate = calculateAgeYears now' dog1.birthDate)
    (h2 : calculateAgeYears now dog2.birthDate = calculateAgeYears now' dog2.birthDate) :
    calculateCompatibilityScore dog1 dog2 user1 user2 now
      = calculateCompatibilityScore dog1 dog2 user1 user2 now' := by
  simp only [calculateCompatibilityScore]
  have hage : getAgeCompatibility dog1.birthDate dog2.birthDate now
      = getAgeCompatibility dog1.birthDate dog2.birthDate now' := by
    simp only [getAgeCompatibility]
    rw [h1, h2]
  rw [hage]

/-- Witness for `c5_clock_dependence_amended`: two distinct clock readings
between which neither dog has a birthday. -/
theorem c5_clock_dependence_amended_witness :
    calculateCompatibilityScore
        ⟨.medium, ⟨2020, 1, 1⟩, .high, ["friendly"], "maschio"⟩
        ⟨.medium, ⟨2022, 6, 1⟩, .high, ["friendly"], "femmina"⟩
        ⟨none⟩ ⟨none⟩ ⟨2026, 3, 1⟩
      = calculateCompatibilityScore
        ⟨.medium, ⟨2020, 1, 1⟩, .high, ["friendly"], "maschio"⟩
        ⟨.medium, ⟨2022, 6, 1⟩, .high, ["friendly"], "femmina"⟩
        ⟨none⟩ ⟨none⟩ ⟨2026, 3, 2⟩ :=
  c5_clock_dependence_amended _ _ _ _ _ _ (by decide) (by decide)

/-- C6, counterexample.  Comparing a candidate with itself (no locations)
yields 82, not the claimed input-shape maximum 85 = 100 − 15: the gender
sub-score of two equal genders is 0.7, costing 3 points even on a perfect
self-match. -/
theorem c6_self_score_counterexample :
    calculateCompatibilityScore
        ⟨.medium, ⟨2020, 1, 1⟩, .high, ["friendly"], "maschio"⟩
        ⟨.medium, ⟨2020, 1, 1⟩, .high, ["friendly"], "maschio"⟩
        ⟨none⟩ ⟨none⟩ ⟨2026, 1, 1⟩ = 82 ∧
      calculateCompatibilityScore
        ⟨.medium, ⟨2020, 1, 1⟩, .high, ["friendly"], "maschio"⟩
        ⟨.medium, ⟨2020, 1, 1⟩, .high, ["friendly"], "maschio"⟩
        ⟨none⟩ ⟨none⟩ ⟨2026, 1, 1⟩ ≠ 85 := by
  have h : calculateCompatibilityScore
      ⟨.medium, ⟨2020, 1, 1⟩, .high, ["friendly"], "maschio"⟩
      ⟨.medium, ⟨2020, 1, 1⟩, .high, ["friendly"], "maschio"⟩
      ⟨none⟩ ⟨none⟩ ⟨2026, 1, 1⟩ = 82 := by
    rw [score_noGeo _ _ _ _ _ (Or.inl rfl)]
    simp [compatibilityScoreNoGeo, getSizeCompatibility, sizeIndex, sizeOrder,
      getAgeCompatibility, calculateAgeYears, getActivityCompatibility, activityIndex,
      activityOrder, getTemperamentCompatibility, genderScore, List.findIdx?]
    norm_num
    rw [show mathRound (82 : ℚ) = 82 from mathRound_eq (by norm_num) (by norm_num)]
    norm_num
  exact ⟨h, by rw [h]; norm_num⟩

/-- C6, amended.  For any candidate with a duplicate-free, non-empty
temperament set compared against itself with geographic data absent, the
score is exactly 82 = 85 − 3: all sub-scores reach their maximum except the
gender contrast, which yields 0.7 × 10 for the necessarily equal genders
(and an empty temperament set would yield only 0.5 × 20). -/
theorem c6_self_score_amended (d : MatchDog) (user1 user2 : MatchUser) (now : SimpleDate)
    (hnd : d.temperament.Nodup) (hne : d.temperament ≠ [])
    (hgeo : user1.coordinates = none ∨ user2.coordinates = none) :
    calculateCompatibilityScore d d user1 user2 now = 82 := by
  rw [score_noGeo _ _ _ _ _ hgeo]
  unfold compatibilityScoreNoGeo
  rw [getSizeCompatibility_self, getAgeCompatibility_self, getActivityCompatibility_self,
    getTemperamentCompatibility_self _ hnd hne]
  have hg : genderScore d.gender d.gender = 0.7 := by
    unfold genderScore; simp
  rw [hg]
  norm_num
  rw [show mathRound (82 : ℚ) = 82 from mathRound_eq (by norm_num) (by norm_num)]
  norm_num

/-- Witness for `c6_self_score_amended` at a concrete candidate. -/
theorem c6_self_score_amended_witness :
    calculateCompatibilityScore
        ⟨.small, ⟨2023, 8, 20⟩, .moderate, ["calm", "shy"], "femmina"⟩
        ⟨.small, ⟨2023, 8, 20⟩, .moderate, ["calm", "shy"], "femmina"⟩
        ⟨none⟩ ⟨none⟩ ⟨2026, 10, 11⟩ = 82 :=
  c6_self_score_amended _ _ _ _ (by simp) (by simp) (Or.inl rfl)

/-- C7.  When either owner lacks coordinates, the geographic sub-score
contributes exactly 0 (the score equals the geography-free arithmetic, with
the remaining weights 20/15/20/20/10 unchanged — no redistribution), the
score is capped at 85, and 85 is attained (identical dogs of different
gender, no locations). -/
theorem c7_missing_geo_cap (dog1 dog2 : MatchDog) (user1 user2 : MatchUser)
    (now : SimpleDate) (h1 : dog1.temperament.Nodup)
    (hgeo : user1.coordinates = none ∨ user2.coordinates = none) :
    calculateCompatibilityScore dog1 dog2 user1 user2 now
        = compatibilityScoreNoGeo dog1 dog2 now ∧
      calculateCompatibilityScore dog1 dog2 user1 user2 now ≤ 85 ∧
      calculateCompatibilityScore
        ⟨.medium, ⟨2020, 1, 1⟩, .high, ["friendly"], "maschio"⟩
        ⟨.medium, ⟨2020, 1, 1⟩, .high, ["friendly"], "femmina"⟩
        ⟨none⟩ ⟨none⟩ now = 85 := by
  have hred := score_noGeo dog1 dog2 user1 user2 now hgeo
  refine ⟨hred, ?_, ?_⟩
  · rw [hred]
    unfold compatibilityScoreNoGeo
    have b1 := getSizeCompatibility_le_one dog1.size dog2.size
    have b2 := getAgeCompatibility_le_one dog1.birthDate dog2.birthDate now
    have b3 := getActivityCompatibility_le_one dog1.activityLevel dog2.activityLevel
    have b4 := getTemperamentCompatibility_le_one dog1.temperament dog2.temperament h1
    have b5 := genderScore_le_one dog1.gender dog2.gender
    refine le_trans (min_le_left _ _) (mathRound_le ?_)
    push_cast
    nlinarith
  · rw [score_noGeo _ _ _ _ _ (Or.inl rfl)]
    unfold compatibilityScoreNoGeo
    have hg : genderScore ("maschio") ("femmina") = 1 := by
      unfold genderScore; simp
    rw [show (⟨.medium, ⟨2020, 1, 1⟩, .high, ["friendly"], "maschio"⟩ : MatchDog).size
        = DogSize.medium from rfl]
    rw [getSizeCompatibility_self, getAgeCompatibility_self,
      getActivityCompatibility_self,
      getTemperamentCompatibility_self _ (by simp) (by simp), hg]
    norm_num
    rw [show mathRound (85 : ℚ) = 85 from mathRound_eq (by norm_num) (by norm_num)]
    norm_num

/-- Witness for `c7_missing_geo_cap` at concrete candidates. -/
theorem c7_missing_geo_cap_witness :
    calculateCompatibilityScore
        ⟨.medium, ⟨2020, 1, 1⟩, .high, ["friendly"], "maschio"⟩
        ⟨.large, ⟨2019, 4, 2⟩, .moderate, ["calm", "shy"], "femmina"⟩
        ⟨none⟩ ⟨none⟩ ⟨2026, 10, 11⟩
        = compatibilityScoreNoGeo
          ⟨.medium, ⟨2020, 1, 1⟩, .high, ["friendly"], "maschio"⟩
          ⟨.large, ⟨2019, 4, 2⟩, .moderate, ["calm", "shy"], "femmina"⟩
          ⟨2026, 10, 11⟩ ∧
      calculateCompatibilityScore
        ⟨.medium, ⟨2020, 1, 1⟩, .high, ["friendly"], "maschio"⟩
        ⟨.large, ⟨2019, 4, 2⟩, .moderate, ["calm", "shy"], "femmina"⟩
        ⟨none⟩ ⟨none⟩ ⟨2026, 10, 11⟩ ≤ 85 ∧
      calculateCompatibilityScore
        ⟨.medium, ⟨2020, 1, 1⟩, .high, ["friendly"], "maschio"⟩
        ⟨.medium, ⟨2020, 1, 1⟩, .high, ["friendly"], "femmina"⟩
        ⟨none⟩ ⟨none⟩ ⟨2026, 10, 11⟩ = 85 :=
  c7_missing_geo_cap _ _ _ _ _ (by simp) (Or.inl rfl)

end Doggo
